import Mathlib

/-
  Verification development for the slam_metrics evaluation script
  (src/script_evaluate_metrics.py).

  The repository ships a single source file, the CLI driver
  `script_evaluate_metrics.py`.  The helper modules it imports
  (`utils`, `slam_metrics`, `plot_utils`, `SE3UncertaintyLib`) are not part
  of the sources; where a claim depends on them they are either modelled
  from the specification (marked `Modelled from the spec:`) or kept as
  abstract parameters bundled in the `Ext` structure, so that theorems
  about the driver hold for every possible behaviour of the missing code.

  Numbers are embedded as rationals.  The elementwise division of the DDT
  stage models the non-finite value produced by a zero divisor as `none`.
-/

namespace SlamSpec

/-- Rational 3-vector standing for a translation or a positional error. -/
structure Vec3 where
  x : ℚ
  y : ℚ
  z : ℚ
  deriving DecidableEq

/-- Rational 3x3 matrix standing for a rotation block of a pose. -/
structure Mat3 where
  m00 : ℚ
  m01 : ℚ
  m02 : ℚ
  m10 : ℚ
  m11 : ℚ
  m12 : ℚ
  m20 : ℚ
  m21 : ℚ
  m22 : ℚ
  deriving DecidableEq

/-- Rigid transform: the 4x4 homogeneous matrix of the script, split into
its rotation block and its translation column. -/
structure Pose where
  rot : Mat3
  trans : Vec3
  deriving DecidableEq

/-- Tangent-space 6-vector; the script slices it as rows `[0:3]` and
`[3:6]` of a 6xN array. -/
structure Vec6 where
  e0 : ℚ
  e1 : ℚ
  e2 : ℚ
  e3 : ℚ
  e4 : ℚ
  e5 : ℚ
  deriving DecidableEq

/-- 6x6 pose covariance split in four 3x3 blocks; `tt` is the block on the
translational components, `rr` the block on the rotational ones. -/
structure Cov6 where
  tt : Mat3
  tr : Mat3
  rt : Mat3
  rr : Mat3
  deriving DecidableEq

/-- Trajectory: timestamp-keyed pose sequence (the python dict). -/
abbrev Traj := List (ℚ × Pose)

/-- Covariance trajectory: timestamp-keyed covariance sequence. -/
abbrev CovTraj := List (ℚ × Cov6)

def vadd (a b : Vec3) : Vec3 := ⟨a.x + b.x, a.y + b.y, a.z + b.z⟩

def vsub (a b : Vec3) : Vec3 := ⟨a.x - b.x, a.y - b.y, a.z - b.z⟩

def vscale (f : ℚ) (v : Vec3) : Vec3 := ⟨f * v.x, f * v.y, f * v.z⟩

def vneg (v : Vec3) : Vec3 := ⟨-v.x, -v.y, -v.z⟩

def mscale (f : ℚ) (m : Mat3) : Mat3 :=
  ⟨f * m.m00, f * m.m01, f * m.m02,
   f * m.m10, f * m.m11, f * m.m12,
   f * m.m20, f * m.m21, f * m.m22⟩

def mmul (a b : Mat3) : Mat3 :=
  ⟨a.m00 * b.m00 + a.m01 * b.m10 + a.m02 * b.m20,
   a.m00 * b.m01 + a.m01 * b.m11 + a.m02 * b.m21,
   a.m00 * b.m02 + a.m01 * b.m12 + a.m02 * b.m22,
   a.m10 * b.m00 + a.m11 * b.m10 + a.m12 * b.m20,
   a.m10 * b.m01 + a.m11 * b.m11 + a.m12 * b.m21,
   a.m10 * b.m02 + a.m11 * b.m12 + a.m12 * b.m22,
   a.m20 * b.m00 + a.m21 * b.m10 + a.m22 * b.m20,
   a.m20 * b.m01 + a.m21 * b.m11 + a.m22 * b.m21,
   a.m20 * b.m02 + a.m21 * b.m12 + a.m22 * b.m22⟩

def mtransp (m : Mat3) : Mat3 :=
  ⟨m.m00, m.m10, m.m20, m.m01, m.m11, m.m21, m.m02, m.m12, m.m22⟩

def mvmul (m : Mat3) (v : Vec3) : Vec3 :=
  ⟨m.m00 * v.x + m.m01 * v.y + m.m02 * v.z,
   m.m10 * v.x + m.m11 * v.y + m.m12 * v.z,
   m.m20 * v.x + m.m21 * v.y + m.m22 * v.z⟩

/-- Modelled from the spec: Geometry Kernel `compose(A,B)` (section 4.1);
the implementation lives in the missing `SE3UncertaintyLib`/`utils`
modules.  Standard SE(3) composition of homogeneous matrices. -/
def compose (A B : Pose) : Pose :=
  ⟨mmul A.rot B.rot, vadd (mvmul A.rot B.trans) A.trans⟩

/-- Modelled from the spec: Geometry Kernel `invert(A)` (section 4.1);
the implementation lives in the missing library modules.  Standard SE(3)
inverse of a homogeneous matrix. -/
def invert (A : Pose) : Pose :=
  ⟨mtransp A.rot, vneg (mvmul (mtransp A.rot) A.trans)⟩

/-- Modelled from the spec: `utils.scale_dict` on poses (section 4.2) —
"scales only translational components of poses by factor; rotations are
untouched".  `utils.py` is not under the sources. -/
def scale_dict (t : Traj) (f : ℚ) : Traj :=
  t.map fun p => (p.1, ⟨p.2.rot, vscale f p.2.trans⟩)

/-- Modelled from the spec: `utils.scale_dict` with `is_cov=True`
(section 4.2) — scales the translational block of each covariance by the
factor, leaving the other blocks untouched. -/
def scale_dict_cov (c : CovTraj) (f : ℚ) : CovTraj :=
  c.map fun p => (p.1, ⟨mscale f p.2.tt, p.2.tr, p.2.rt, p.2.rr⟩)

/-- Axis restriction selector of `slam_metrics.ATE_Horn` (`axes` keyword:
absent, `X`, `Y` or `Z` in the script). -/
inductive AxesSel where
  | all
  | axX
  | axY
  | axZ
  deriving DecidableEq

/-- Modelled from the spec: the ATE-Horn axis restriction (section 4.5) —
"optionally restricted to a single coordinate axis (X/Y/Z) by zeroing the
other components before taking the norm". -/
def restrictAxes : AxesSel → Vec3 → Vec3
  | AxesSel.all, v => v
  | AxesSel.axX, v => ⟨v.x, 0, 0⟩
  | AxesSel.axY, v => ⟨0, v.y, 0⟩
  | AxesSel.axZ, v => ⟨0, 0, v.z⟩

/-- Coordinate of a vector selected by an axis (0 for the no-restriction
selector); used to state the per-axis norm property. -/
def coordOf : AxesSel → Vec3 → ℚ
  | AxesSel.all, _ => 0
  | AxesSel.axX, v => v.x
  | AxesSel.axY, v => v.y
  | AxesSel.axZ, v => v.z

/-- Squared Euclidean norm of a 3-vector (the script takes
`np.linalg.norm` column-wise; the norm itself is the real square root). -/
def sqnorm3 (v : Vec3) : ℚ := v.x ^ 2 + v.y ^ 2 + v.z ^ 2

/-- Modelled from the spec: per-pair ATE-Horn error data (section 4.5) —
"for each matched pair, error = (aligned_est_position − gt_position)",
restricted by the axis selector.  Pairs are formed by index position on
the two index-aligned trajectories. -/
def ateHornData (gt est : Traj) (a : AxesSel) : List Vec3 :=
  (gt.zip est).map fun pr => restrictAxes a (vsub pr.2.2.trans pr.1.2.trans)

/-- Modelled from the spec: `slam_metrics.ATE_Horn` (sections 4.3 and 4.5)
— pairing is by index position and requires equal lengths; unequal
lengths are a failure (`none`), not a silent result. -/
def ATE_Horn (gt est : Traj) (a : AxesSel) : Option (List Vec3) :=
  if gt.length = est.length then some (ateHornData gt est a) else none

/-- Translational sub-vector: the script slices rows `[0:3]` of the 6xN
error array and labels their norms `Translational`. -/
def transPart (v : Vec6) : Vec3 := ⟨v.e0, v.e1, v.e2⟩

/-- Rotational sub-vector: the script slices rows `[3:6]` of the 6xN
error array and labels their norms `Rotational`. -/
def rotPart (v : Vec6) : Vec3 := ⟨v.e3, v.e4, v.e5⟩

/-- Result of `slam_metrics.RPE`: the 6xN error array (as a list of
columns) and the per-pair accumulated traveled distance. -/
structure RPERes where
  errors : List Vec6
  distances : List ℚ
  deriving DecidableEq

/-- Elementwise division of a 6-vector by a scalar, mirroring one column
of `np.divide(rpe_error, rpe_distance)`. -/
def divVec6 (v : Vec6) (d : ℚ) : Vec6 :=
  ⟨v.e0 / d, v.e1 / d, v.e2 / d, v.e3 / d, v.e4 / d, v.e5 / d⟩

/-- Embedding of line 153 of the script,
`ddt = np.divide(rpe_error, rpe_distance)`: each column of the error
array is divided by the matching distance.  A zero distance makes every
component of the column non-finite (inf/nan) in numpy; such a column is
modelled as `none`.  No column is dropped and no exception is raised. -/
def ddtCompute (errors : List Vec6) (distances : List ℚ) : List (Option Vec6) :=
  List.zipWith (fun e d => if d = 0 then none else some (divVec6 e d)) errors distances

/-- Abstract interface to the repository modules that are not under the
sources (`utils.py`, `slam_metrics.py`, `SE3UncertaintyLib.py`).  Each
field stands for the function of the same name called by the script;
theorems quantified over `Ext` hold for every behaviour of that code. -/
structure Ext where
  compute_scale_from_trajectories : Traj → Traj → ℚ
  associate_and_filter : Traj → Traj → ℚ → ℚ → ℚ → Bool → Traj × Traj
  associate_and_filter_cov : CovTraj → CovTraj → ℚ → ℚ → ℚ → Bool → CovTraj × CovTraj
  align_trajectories_manifold : Traj → Traj → Option CovTraj → Traj × Traj
  align_trajectories_horn : Traj → Traj → Traj × Traj
  align_trajectories_to_first : Traj → Traj → Traj × Traj
  se3log : Pose → Vec6
  RPE : Traj → Traj → ℕ → Bool → ℚ → String → ℚ → RPERes

/-- Modelled from the spec: `slam_metrics.ATE_SE3` (section 4.5) — per
matched pair, error = log(gt_pose⁻¹ · aligned_est_pose); the logarithm map
itself lives in the missing `SE3UncertaintyLib` and stays abstract. -/
def ATE_SE3 (ext : Ext) (gt est : Traj) : List Vec6 :=
  (gt.zip est).map fun pr => ext.se3log (compose (invert pr.1.2) pr.2.2)

/-- Command-line arguments of the script (lines 24 to 46). -/
structure Args where
  offset : ℚ
  offset_initial : ℚ
  scale : ℚ
  max_pairs : ℕ
  max_difference : ℚ
  fixed_delta : Bool
  delta : ℚ
  delta_unit : String
  alignment : String
  ate_manifold : Bool
  rpe : Bool
  ddt : Bool
  automatic_scale : Bool
  show_plots : Bool
  no_metrics : Bool
  verbose : Bool
  ignore_timestamp_match : Bool
  recommended_offset : Bool

/-- Input data after loading and format checking (lines 57 to 71):
the two pose trajectories and, for the `tum_cov` format, the pair of
covariance trajectories. -/
structure Input where
  gt : Traj
  est : Traj
  covs : Option (CovTraj × CovTraj)

def alignManifoldStr : String := "manifold"

def alignHornStr : String := "horn"

def alignFirstStr : String := "first"

def hdrATE : String := "\nATE - Horn"

def hdrATEX : String := "\nATE - Horn - X"

def hdrATEY : String := "\nATE - Horn - Y"

def hdrATEZ : String := "\nATE - Horn - Z"

def hdrATEman : String := "\nATE - Manifold"

def hdrDDT : String := "\nDDT"

def lblDefault : String := ""

def lblTrans : String := "Translational"

def lblRot : String := "Rotational"

def nmRpeError : String := "rpe_error"

def nmGtAlign : String := "gt_poses_align"

/-- Observable events of a run, in execution order: stage markers, console
headers and the data handed to `slam_metrics.compute_statistics` (the data
recorded is the list of per-pair error vectors whose norms are
summarized). -/
inductive Event where
  | load
  | scaleEv (s : ℚ)
  | assocEv
  | alignEv (kind : String)
  | printEv (s : String)
  | rpeHdr (delta : ℚ) (unit : String)
  | statEv (label : String) (data : List Vec3)
  | statOptEv (label : String) (data : List (Option Vec3))
  | plotEv
  deriving DecidableEq

/-- Python runtime errors the script can hit: an unbound name
(`NameError`) or a shape/length failure inside a metric call. -/
inductive PyErr where
  | nameError (n : String)
  | valueError
  deriving DecidableEq

/-- Result of a run: the events emitted before termination and the error
that aborted the run, if any. -/
abbrev ScriptResult := List Event × Option PyErr

/-- Lines 77 to 79: the scale is the CLI argument unless
`--automatic_scale` is set, in which case it is recomputed from the two
trajectories and the CLI value is discarded. -/
def computedScale (ext : Ext) (args : Args) (inp : Input) : ℚ :=
  if args.automatic_scale then ext.compute_scale_from_trajectories inp.gt inp.est
  else args.scale

/-- Lines 81 to 82: the ground truth is scaled by factor 1, the estimate
by the computed scale. -/
def scaledTrajsAux (inp : Input) (s : ℚ) : Traj × Traj :=
  (scale_dict inp.gt 1, scale_dict inp.est s)

def scaledTrajs (ext : Ext) (args : Args) (inp : Input) : Traj × Traj :=
  scaledTrajsAux inp (computedScale ext args inp)

/-- Lines 87 to 89: timestamp association, skipped entirely when
`--ignore_timestamp_match` is given. -/
def assocStage (ext : Ext) (args : Args) (ts : Traj × Traj) : Traj × Traj :=
  if args.ignore_timestamp_match then ts
  else ext.associate_and_filter ts.1 ts.2 args.offset args.max_difference
    args.offset_initial args.recommended_offset

/-- Lines 90 to 91: association of the covariance dictionaries, performed
only when association is not bypassed and covariances are present. -/
def assocCovStage (ext : Ext) (args : Args) (cs : Option (CovTraj × CovTraj)) :
    Option (CovTraj × CovTraj) :=
  if args.ignore_timestamp_match then cs
  else cs.map fun c => ext.associate_and_filter_cov c.1 c.2 args.offset
    args.max_difference args.offset_initial args.recommended_offset

/-- Lines 93 to 102: the alignment dispatch.  The if/elif chain has no
else branch: an unknown alignment string binds nothing (`none`). -/
def alignStage (ext : Ext) (args : Args) (ts : Traj × Traj) (ec : Option CovTraj) :
    Option (String × (Traj × Traj)) :=
  if args.alignment = alignManifoldStr then
    some (alignManifoldStr, ext.align_trajectories_manifold ts.1 ts.2 ec)
  else if args.alignment = alignHornStr then
    some (alignHornStr, ext.align_trajectories_horn ts.1 ts.2)
  else if args.alignment = alignFirstStr then
    some (alignFirstStr, ext.align_trajectories_to_first ts.1 ts.2)
  else none

/-- Lines 107 to 122: the four unconditional ATE-Horn computations (full,
X, Y, Z), each a header print followed by statistics over the error
norms. -/
def ateEvts (g e : Traj) : List Event :=
  [Event.printEv hdrATE, Event.statEv lblDefault (ateHornData g e AxesSel.all),
   Event.printEv hdrATEX, Event.statEv lblDefault (ateHornData g e AxesSel.axX),
   Event.printEv hdrATEY, Event.statEv lblDefault (ateHornData g e AxesSel.axY),
   Event.printEv hdrATEZ, Event.statEv lblDefault (ateHornData g e AxesSel.axZ)]

/-- Lines 126 to 134: the ATE-manifold block, gated by `--ate_manifold`;
rows 0 to 2 of the error array are summarized as `Translational`, rows 3
to 5 as `Rotational`. -/
def manEvts (ext : Ext) (args : Args) (g e : Traj) : List Event :=
  if args.ate_manifold then
    [Event.printEv hdrATEman,
     Event.statEv lblTrans ((ATE_SE3 ext g e).map transPart),
     Event.statEv lblRot ((ATE_SE3 ext g e).map rotPart)]
  else []

/-- Lines 137 to 145: the RPE result is bound only when `--rpe` is given;
otherwise the name `rpe_error` stays unbound for the rest of the run. -/
def rpeResOf (ext : Ext) (args : Args) (g e : Traj) : Option RPERes :=
  if args.rpe then
    some (ext.RPE g e args.max_pairs args.fixed_delta args.delta args.delta_unit args.offset)
  else none

/-- Lines 138 and 147 to 148: the RPE header and its two statistics. -/
def rpeEvts (ext : Ext) (args : Args) (g e : Traj) : List Event :=
  match rpeResOf ext args g e with
  | some r =>
      [Event.rpeHdr args.delta args.delta_unit,
       Event.statEv lblTrans (r.errors.map transPart),
       Event.statEv lblRot (r.errors.map rotPart)]
  | none => []

/-- Lines 150 to 155: the DDT block.  When `--rpe` was not given the
reference to `rpe_error` raises a `NameError` after the header print;
otherwise the error array is divided elementwise by the distances. -/
def ddtBlock (ext : Ext) (args : Args) (g e : Traj) : List Event × Option PyErr :=
  if args.ddt then
    match rpeResOf ext args g e with
    | none => ([Event.printEv hdrDDT], some (PyErr.nameError nmRpeError))
    | some r =>
        ([Event.printEv hdrDDT,
          Event.statOptEv lblTrans ((ddtCompute r.errors r.distances).map (Option.map transPart)),
          Event.statOptEv lblRot ((ddtCompute r.errors r.distances).map (Option.map rotPart))],
         none)
  else ([], none)

/-- Lines 105 to 155: the whole metric block.  The first ATE-Horn call
fails on trajectories of unequal length (no silent broadcasting in the
model); afterwards every metric runs on the same index-aligned pairs. -/
def metricsBlock (ext : Ext) (args : Args) (g e : Traj) : List Event × Option PyErr :=
  if g.length = e.length then
    let d := ddtBlock ext args g e
    (ateEvts g e ++ manEvts ext args g e ++ rpeEvts ext args g e ++ d.1, d.2)
  else ([Event.printEv hdrATE], some PyErr.valueError)

/-- The aligned trajectories, as bound (or not) by lines 93 to 102, as a
function of the computed scale. -/
def alignedOfAux (ext : Ext) (args : Args) (inp : Input) (s : ℚ) :
    Option (String × (Traj × Traj)) :=
  alignStage ext args (assocStage ext args (scaledTrajsAux inp s))
    ((assocCovStage ext args (inp.covs.map fun c => (c.1, scale_dict_cov c.2 s))).map Prod.snd)

/-- The run of the script body for a given scale value `s`.  Events are
listed in execution order; the run stops at the first Python error. -/
def runScriptAux (ext : Ext) (args : Args) (inp : Input) (s : ℚ) : ScriptResult :=
  let pre : List Event :=
    Event.load :: Event.scaleEv s ::
      (if args.ignore_timestamp_match then [] else [Event.assocEv])
  match alignedOfAux ext args inp s with
  | none =>
      if args.no_metrics then
        if args.show_plots then (pre, some (PyErr.nameError nmGtAlign))
        else (pre, none)
      else (pre ++ [Event.printEv hdrATE], some (PyErr.nameError nmGtAlign))
  | some kge =>
      let pre2 := pre ++ [Event.alignEv kge.1]
      if args.no_metrics then
        (pre2 ++ (if args.show_plots then [Event.plotEv] else []), none)
      else
        let m := metricsBlock ext args kge.2.1 kge.2.2
        match m.2 with
        | some e2 => (pre2 ++ m.1, some e2)
        | none => (pre2 ++ m.1 ++ (if args.show_plots then [Event.plotEv] else []), none)

/-- Embedding of the `__main__` body of `script_evaluate_metrics.py`:
load, scale (lines 76 to 85), association (87 to 91), alignment (93 to
102), metrics (105 to 155) and plotting (157 onwards). -/
def runScript (ext : Ext) (args : Args) (inp : Input) : ScriptResult :=
  runScriptAux ext args inp (computedScale ext args inp)

/-- Stage predicates on events, used to state execution order. -/
def isLoadEv : Event → Bool
  | Event.load => true
  | _ => false

def isScaleEv : Event → Bool
  | Event.scaleEv _ => true
  | _ => false

def isAssocEv : Event → Bool
  | Event.assocEv => true
  | _ => false

def isAlignEv : Event → Bool
  | Event.alignEv _ => true
  | _ => false

/-- An event of the Metric Engine: a metric header print, an RPE header
or a statistics computation. -/
def isMetricEv : Event → Bool
  | Event.printEv _ => true
  | Event.rpeHdr _ _ => true
  | Event.statEv _ _ => true
  | Event.statOptEv _ _ => true
  | _ => false

def isAteHornHdr : Event → Bool
  | Event.printEv s => s == hdrATE
  | _ => false

def isAteManHdr : Event → Bool
  | Event.printEv s => s == hdrATEman
  | _ => false

def isRpeHdrEv : Event → Bool
  | Event.rpeHdr _ _ => true
  | _ => false

def isDdtHdrEv : Event → Bool
  | Event.printEv s => s == hdrDDT
  | _ => false

def isStatOptEv : Event → Bool
  | Event.statOptEv _ _ => true
  | _ => false

/-- Identity rotation. -/
def mat3Id : Mat3 := ⟨1, 0, 0, 0, 1, 0, 0, 0, 1⟩

/-- Identity pose. -/
def poseId : Pose := ⟨mat3Id, ⟨0, 0, 0⟩⟩

/-- One-pose trajectory used for concrete evaluations. -/
def trajW : Traj := [(0, poseId)]

/-- All-ones tangent vector. -/
def vec6One : Vec6 := ⟨1, 1, 1, 1, 1, 1⟩

/-- A concrete instantiation of the missing modules used to evaluate the
driver on closed inputs: association and alignment act as the identity,
the automatic scale is the constant 2, and RPE reports a single pair with
traveled distance 0 (a stationary trajectory). -/
def extW : Ext :=
  ⟨fun _ _ => 2,
   fun g e _ _ _ _ => (g, e),
   fun g e _ _ _ _ => (g, e),
   fun g e _ => (g, e),
   fun g e => (g, e),
   fun g e => (g, e),
   fun _ => ⟨0, 0, 0, 0, 0, 0⟩,
   fun _ _ _ _ _ _ _ => ⟨[vec6One], [0]⟩⟩

def unitM : String := "m"

/-- Default CLI arguments of the script (every flag off, horn alignment,
scale 1). -/
def argsBase : Args :=
  ⟨0, 0, 1, 10000, 1 / 50, false, 1, unitM, alignHornStr,
   false, false, false, false, false, false, false, false, false⟩

/-- Concrete input: identical one-pose trajectories, no covariances. -/
def inpW : Input := ⟨trajW, trajW, none⟩

/-- The run body never reads the CLI scale argument: it only sees the
already-computed scale value. -/
lemma runScriptAux_scale_field (ext : Ext) (args : Args) (inp : Input) (s q : ℚ) :
    runScriptAux ext { args with scale := q } inp s = runScriptAux ext args inp s := by
  cases args
  rfl

/-- C5: when the automatic-scale flag is set, the computed scale ignores
the CLI scale argument, so two runs differing only in that argument are
identical. -/
theorem c5_auto_scale_noninterference (ext : Ext) (args : Args) (inp : Input) (q : ℚ)
    (h : args.automatic_scale = true) :
    runScript ext args inp = runScript ext { args with scale := q } inp := by
  have hs : computedScale ext { args with scale := q } inp = computedScale ext args inp := by
    simp [computedScale, h]
  unfold runScript
  rw [hs]
  exact (runScriptAux_scale_field ext args inp (computedScale ext args inp) q).symm

theorem c5_witness :
    runScript extW { argsBase with automatic_scale := true } inpW =
      runScript extW { { argsBase with automatic_scale := true } with scale := 7 } inpW :=
  c5_auto_scale_noninterference extW { argsBase with automatic_scale := true } inpW 7 rfl

/-- Arguments for the stage-order counterexample: defaults with the
metric stage bypassed (alignment horn, association enabled). -/
def argsC3 : Args := { argsBase with no_metrics := true }

/-- C3 counterexample: in a concrete run the association event does not
precede the scaling event — scaling happens first (lines 76 to 91 of the
script), contradicting the claimed order. -/
theorem c3_counterexample :
    ¬ ((runScript extW argsC3 inpW).1.findIdx isAssocEv <
        (runScript extW argsC3 inpW).1.findIdx isScaleEv) ∧
    (runScript extW argsC3 inpW).1.findIdx isAssocEv < (runScript extW argsC3 inpW).1.length ∧
    (runScript extW argsC3 inpW).1.findIdx isScaleEv < (runScript extW argsC3 inpW).1.length := by
  decide

/-- Order of the stage events once the head of the event list is in
explicit form. -/
lemma stageOrderAux (s : ℚ) (k : String) (tail : List Event) :
    (Event.load :: Event.scaleEv s :: Event.assocEv :: Event.alignEv k :: tail).findIdx
        isLoadEv = 0 ∧
    (Event.load :: Event.scaleEv s :: Event.assocEv :: Event.alignEv k :: tail).findIdx
        isScaleEv = 1 ∧
    (Event.load :: Event.scaleEv s :: Event.assocEv :: Event.alignEv k :: tail).findIdx
        isAssocEv = 2 ∧
    (Event.load :: Event.scaleEv s :: Event.assocEv :: Event.alignEv k :: tail).findIdx
        isAlignEv = 3 ∧
    4 ≤ (Event.load :: Event.scaleEv s :: Event.assocEv :: Event.alignEv k :: tail).findIdx
        isMetricEv := by
  refine ⟨?_, ?_, ?_, ?_, ?_⟩ <;>
    simp [List.findIdx_cons, isLoadEv, isScaleEv, isAssocEv, isAlignEv, isMetricEv]

/-- C3 amended: in every run with association enabled and a recognized
alignment mode, the stages execute as load, scaling, association,
alignment, metrics — the scale is chosen and applied before timestamp
association, not after. -/
theorem c3_stage_order (ext : Ext) (args : Args) (inp : Input) (k : String) (ge : Traj × Traj)
    (hig : args.ignore_timestamp_match = false)
    (hal : alignedOfAux ext args inp (computedScale ext args inp) = some (k, ge)) :
    (runScript ext args inp).1.findIdx isLoadEv = 0 ∧
    (runScript ext args inp).1.findIdx isScaleEv = 1 ∧
    (runScript ext args inp).1.findIdx isAssocEv = 2 ∧
    (runScript ext args inp).1.findIdx isAlignEv = 3 ∧
    4 ≤ (runScript ext args inp).1.findIdx isMetricEv := by
  unfold runScript runScriptAux
  rw [hal]
  cases hnm : args.no_metrics with
  | true =>
      simpa [hig, hnm] using
        stageOrderAux (computedScale ext args inp) k
          (if args.show_plots then [Event.plotEv] else [])
  | false =>
      cases hm : (metricsBlock ext args ge.1 ge.2).2 with
      | none =>
          simpa [hig, hnm, hm] using
            stageOrderAux (computedScale ext args inp) k
              ((metricsBlock ext args ge.1 ge.2).1 ++
                (if args.show_plots then [Event.plotEv] else []))
      | some e2 =>
          simpa [hig, hnm, hm] using
            stageOrderAux (computedScale ext args inp) k (metricsBlock ext args ge.1 ge.2).1

/-- Concrete evaluation of the aligned-trajectory binding for the witness
instantiation: with identity-like external functions, scale 1 and horn
alignment the aligned pair is the input pair. -/
lemma alignedOfAux_extW_horn (args : Args) (h1 : args.automatic_scale = false)
    (h2 : args.scale = 1) (h3 : args.alignment = alignHornStr) :
    alignedOfAux extW args inpW (computedScale extW args inpW) =
      some (alignHornStr, (trajW, trajW)) := by
  have hsc : scale_dict trajW 1 = trajW := by
    simp [scale_dict, trajW, vscale, poseId]
  simp [alignedOfAux, alignStage, assocStage, assocCovStage, scaledTrajsAux,
    computedScale, h1, h2, h3, extW, inpW, hsc, alignManifoldStr, alignHornStr]

theorem c3_witness :
    (runScript extW argsBase inpW).1.findIdx isLoadEv = 0 ∧
    (runScript extW argsBase inpW).1.findIdx isScaleEv = 1 ∧
    (runScript extW argsBase inpW).1.findIdx isAssocEv = 2 ∧
    (runScript extW argsBase inpW).1.findIdx isAlignEv = 3 ∧
    4 ≤ (runScript extW argsBase inpW).1.findIdx isMetricEv :=
  c3_stage_order extW argsBase inpW alignHornStr (trajW, trajW) rfl
    (alignedOfAux_extW_horn argsBase rfl rfl rfl)

/-- C10: an alignment string other than first, manifold or horn binds no
aligned trajectories (no default strategy), and every stage that consumes
them — metric computation or plotting — aborts with an undefined-name
error and emits no statistics and no plot. -/
theorem c10_invalid_alignment (ext : Ext) (args : Args) (inp : Input)
    (h1 : args.alignment ≠ alignManifoldStr) (h2 : args.alignment ≠ alignHornStr)
    (h3 : args.alignment ≠ alignFirstStr) :
    (∀ ts ec, alignStage ext args ts ec = none) ∧
    (args.no_metrics = false →
      (runScript ext args inp).2 = some (PyErr.nameError nmGtAlign) ∧
      (∀ l d, Event.statEv l d ∉ (runScript ext args inp).1) ∧
      (∀ l d, Event.statOptEv l d ∉ (runScript ext args inp).1) ∧
      Event.plotEv ∉ (runScript ext args inp).1) ∧
    (args.no_metrics = true → args.show_plots = true →
      (runScript ext args inp).2 = some (PyErr.nameError nmGtAlign) ∧
      Event.plotEv ∉ (runScript ext args inp).1) := by
  have hnone : ∀ ts ec, alignStage ext args ts ec = none := by
    intro ts ec
    simp [alignStage, h1, h2, h3]
  refine ⟨hnone, ?_, ?_⟩
  · intro hnm
    unfold runScript runScriptAux alignedOfAux
    rw [hnone, hnm]
    cases hig : args.ignore_timestamp_match <;> simp [hig]
  · intro hnm hsp
    unfold runScript runScriptAux alignedOfAux
    rw [hnone, hnm, hsp]
    cases hig : args.ignore_timestamp_match <;> simp [hig]

/-- Arguments for the C10 witness: an unrecognized alignment mode. -/
def strBanana : String := "banana"

def argsC10 : Args := { argsBase with alignment := strBanana }

theorem c10_witness :
    (∀ ts ec, alignStage extW argsC10 ts ec = none) ∧
    (argsC10.no_metrics = false →
      (runScript extW argsC10 inpW).2 = some (PyErr.nameError nmGtAlign) ∧
      (∀ l d, Event.statEv l d ∉ (runScript extW argsC10 inpW).1) ∧
      (∀ l d, Event.statOptEv l d ∉ (runScript extW argsC10 inpW).1) ∧
      Event.plotEv ∉ (runScript extW argsC10 inpW).1) ∧
    (argsC10.no_metrics = true → argsC10.show_plots = true →
      (runScript extW argsC10 inpW).2 = some (PyErr.nameError nmGtAlign) ∧
      Event.plotEv ∉ (runScript extW argsC10 inpW).1) :=
  c10_invalid_alignment extW argsC10 inpW (by decide) (by decide) (by decide)

/-- C2: DDT needs the RPE binding of the same run.  When `--ddt` is given
without `--rpe` the run aborts at the DDT stage with a `NameError` on
`rpe_error` and no DDT statistics are emitted; when both are given, the
DDT statistics are exactly the RPE error vectors of that run divided by
that run's per-pair distances. -/
theorem c2_ddt_requires_rpe (ext : Ext) (args : Args) (inp : Input) (k : String) (g e : Traj)
    (hnm : args.no_metrics = false) (hddt : args.ddt = true)
    (hal : alignedOfAux ext args inp (computedScale ext args inp) = some (k, (g, e)))
    (hlen : g.length = e.length) :
    (args.rpe = false →
      (runScript ext args inp).2 = some (PyErr.nameError nmRpeError) ∧
      ∀ l d, Event.statOptEv l d ∉ (runScript ext args inp).1) ∧
    (args.rpe = true →
      (runScript ext args inp).2 = none ∧
      Event.statOptEv lblTrans
        ((ddtCompute
            (ext.RPE g e args.max_pairs args.fixed_delta args.delta args.delta_unit args.offset).errors
            (ext.RPE g e args.max_pairs args.fixed_delta args.delta args.delta_unit args.offset).distances).map
          (Option.map transPart)) ∈ (runScript ext args inp).1) := by
  constructor
  · intro hrpe
    have hmb : metricsBlock ext args g e =
        (ateEvts g e ++ manEvts ext args g e ++ [] ++ [Event.printEv hdrDDT],
         some (PyErr.nameError nmRpeError)) := by
      simp [metricsBlock, ddtBlock, rpeResOf, rpeEvts, hlen, hddt, hrpe]
    unfold runScript runScriptAux
    rw [hal, hnm]
    refine ⟨by simp [hmb], ?_⟩
    intro l d
    cases hig : args.ignore_timestamp_match <;>
      cases ham : args.ate_manifold <;>
        simp [hig, ham, hmb, ateEvts, manEvts]
  · intro hrpe
    have hmb : metricsBlock ext args g e =
        (ateEvts g e ++ manEvts ext args g e ++ rpeEvts ext args g e ++
          [Event.printEv hdrDDT,
           Event.statOptEv lblTrans
             ((ddtCompute
                 (ext.RPE g e args.max_pairs args.fixed_delta args.delta args.delta_unit args.offset).errors
                 (ext.RPE g e args.max_pairs args.fixed_delta args.delta args.delta_unit args.offset).distances).map
               (Option.map transPart)),
           Event.statOptEv lblRot
             ((ddtCompute
                 (ext.RPE g e args.max_pairs args.fixed_delta args.delta args.delta_unit args.offset).errors
                 (ext.RPE g e args.max_pairs args.fixed_delta args.delta args.delta_unit args.offset).distances).map
               (Option.map rotPart))],
         none) := by
      simp [metricsBlock, ddtBlock, rpeResOf, hlen, hddt, hrpe]
    unfold runScript runScriptAux
    rw [hal, hnm]
    cases hsp : args.show_plots <;> simp [hsp, hmb]

/-- Arguments for the C2 witness: DDT requested, RPE not requested. -/
def argsC2 : Args := { argsBase with ddt := true }

theorem c2_witness :
    (argsC2.rpe = false →
      (runScript extW argsC2 inpW).2 = some (PyErr.nameError nmRpeError) ∧
      ∀ l d, Event.statOptEv l d ∉ (runScript extW argsC2 inpW).1) ∧
    (argsC2.rpe = true →
      (runScript extW argsC2 inpW).2 = none ∧
      Event.statOptEv lblTrans
        ((ddtCompute
            (extW.RPE trajW trajW argsC2.max_pairs argsC2.fixed_delta argsC2.delta argsC2.delta_unit argsC2.offset).errors
            (extW.RPE trajW trajW argsC2.max_pairs argsC2.fixed_delta argsC2.delta argsC2.delta_unit argsC2.offset).distances).map
          (Option.map transPart)) ∈ (runScript extW argsC2 inpW).1) :=
  c2_ddt_requires_rpe extW argsC2 inpW alignHornStr trajW trajW rfl rfl
    (alignedOfAux_extW_horn argsC2 rfl rfl rfl) rfl

/-- Arguments for the C1 counterexample: RPE and DDT both requested. -/
def argsC1 : Args := { argsBase with rpe := true, ddt := true }

/-- C1 counterexample: in a run whose RPE stage reports a pair with
traveled distance 0 (a stationary trajectory), line 153 divides anyway:
the pair is not excluded from the DDT output and its non-finite
(undefined) sample reaches the statistics. -/
theorem c1_counterexample :
    Event.statOptEv lblTrans [none] ∈ (runScript extW argsC1 inpW).1 ∧
    (ddtCompute [vec6One] [0]).length = 1 := by
  have hal := alignedOfAux_extW_horn argsC1 rfl rfl rfl
  have hdd : ddtCompute [vec6One] [(0 : ℚ)] = [none] := by
    simp [ddtCompute]
  constructor
  · unfold runScript runScriptAux
    rw [hal]
    simp [argsC1, argsBase, metricsBlock, ddtBlock, rpeResOf, rpeEvts, extW, trajW, hdd]
  · simp [hdd]

/-- Shape of the DDT division as a map over the pairs. -/
lemma ddtCompute_eq_map (E : List Vec6) (D : List ℚ) :
    ddtCompute E D =
      (E.zip D).map fun p => if p.2 = 0 then none else some (divVec6 p.1 p.2) := by
  induction E generalizing D with
  | nil => cases D <;> simp [ddtCompute]
  | cons a t ih =>
      cases D with
      | nil => simp [ddtCompute]
      | cons b u =>
          have h := ih u
          simp only [ddtCompute] at h ⊢
          simp [h]

/-- C1 amended: the DDT stage divides every RPE pair elementwise by its
traveled distance; a pair with distance 0 is not excluded — the output
keeps one sample per pair, and the zero-distance samples are the
non-finite (undefined) ones. -/
theorem c1_ddt_no_exclusion (E : List Vec6) (D : List ℚ) (h : E.length = D.length) :
    (ddtCompute E D).length = E.length ∧
    ∀ e d, (e, d) ∈ E.zip D →
      (if d = 0 then none else some (divVec6 e d)) ∈ ddtCompute E D := by
  constructor
  · simp only [ddtCompute, List.length_zipWith]
    omega
  · intro e d hm
    rw [ddtCompute_eq_map]
    exact List.mem_map.mpr ⟨(e, d), hm, rfl⟩

theorem c1_witness :
    ((ddtCompute [vec6One] [0]).length = ([vec6One] : List Vec6).length ∧
      ∀ e d, (e, d) ∈ ([vec6One] : List Vec6).zip ([0] : List ℚ) →
        (if d = 0 then none else some (divVec6 e d)) ∈ ddtCompute [vec6One] [0]) :=
  c1_ddt_no_exclusion [vec6One] [0] rfl

/-- C4 counterexample: with every metric-selection flag off (there is no
flag at all for plain ATE) and metrics not bypassed, the run still
computes the ATE-Horn metric — so ATE is computed unconditionally, not
via a CLI knob. -/
theorem c4_counterexample :
    argsBase.ate_manifold = false ∧ argsBase.rpe = false ∧ argsBase.ddt = false ∧
    argsBase.no_metrics = false ∧
    Event.printEv hdrATE ∈ (runScript extW argsBase inpW).1 ∧
    Event.statEv lblDefault (ateHornData trajW trajW AxesSel.all) ∈
      (runScript extW argsBase inpW).1 := by
  have hal := alignedOfAux_extW_horn argsBase rfl rfl rfl
  refine ⟨rfl, rfl, rfl, rfl, ?_, ?_⟩ <;>
    · unfold runScript runScriptAux
      rw [hal]
      simp [argsBase, metricsBlock, ddtBlock, rpeResOf, rpeEvts, manEvts, ateEvts, trajW]

/-- C4 amended: when metrics are bypassed no metric event occurs at all;
otherwise ATE-Horn is always computed (it has no CLI knob), ATE-manifold
and RPE are computed exactly when their flags are set, and DDT statistics
appear exactly when both the DDT and the RPE flags are set. -/
theorem c4_metric_gating (ext : Ext) (args : Args) (inp : Input) (k : String) (g e : Traj)
    (hal : alignedOfAux ext args inp (computedScale ext args inp) = some (k, (g, e)))
    (hlen : g.length = e.length) :
    (args.no_metrics = true → (runScript ext args inp).1.any isMetricEv = false) ∧
    (args.no_metrics = false →
      (runScript ext args inp).1.any isAteHornHdr = true ∧
      (runScript ext args inp).1.any isAteManHdr = args.ate_manifold ∧
      (runScript ext args inp).1.any isRpeHdrEv = args.rpe ∧
      (runScript ext args inp).1.any isDdtHdrEv = args.ddt ∧
      (runScript ext args inp).1.any isStatOptEv = (args.ddt && args.rpe)) := by
  constructor
  · intro hnm
    unfold runScript runScriptAux
    rw [hal, hnm]
    cases hig : args.ignore_timestamp_match <;> cases hsp : args.show_plots <;>
      simp [hig, hsp, isMetricEv]
  · intro hnm
    unfold runScript runScriptAux
    rw [hal, hnm]
    cases hddt : args.ddt <;> cases hrpe : args.rpe <;> cases ham : args.ate_manifold <;>
      cases hig : args.ignore_timestamp_match <;> cases hsp : args.show_plots <;>
        simp [hddt, hrpe, ham, hig, hsp, metricsBlock, ddtBlock, rpeResOf, rpeEvts,
          manEvts, ateEvts, hlen, isAteHornHdr, isAteManHdr, isRpeHdrEv, isDdtHdrEv,
          isStatOptEv, isMetricEv, hdrATE, hdrATEX, hdrATEY, hdrATEZ, hdrATEman, hdrDDT]

theorem c4_witness :
    (argsC1.no_metrics = true → (runScript extW argsC1 inpW).1.any isMetricEv = false) ∧
    (argsC1.no_metrics = false →
      (runScript extW argsC1 inpW).1.any isAteHornHdr = true ∧
      (runScript extW argsC1 inpW).1.any isAteManHdr = argsC1.ate_manifold ∧
      (runScript extW argsC1 inpW).1.any isRpeHdrEv = argsC1.rpe ∧
      (runScript extW argsC1 inpW).1.any isDdtHdrEv = argsC1.ddt ∧
      (runScript extW argsC1 inpW).1.any isStatOptEv = (argsC1.ddt && argsC1.rpe)) :=
  c4_metric_gating extW argsC1 inpW alignHornStr trajW trajW
    (alignedOfAux_extW_horn argsC1 rfl rfl rfl) rfl

lemma vscale_one (v : Vec3) : vscale 1 v = v := by
  cases v
  simp [vscale]

lemma mscale_one (m : Mat3) : mscale 1 m = m := by
  cases m
  simp [mscale]

lemma scale_dict_one (t : Traj) : scale_dict t 1 = t := by
  simp [scale_dict, vscale_one]

lemma scale_dict_cov_one (c : CovTraj) : scale_dict_cov c 1 = c := by
  simp [scale_dict_cov, mscale_one]

/-- C6: the script scales the ground truth by factor 1 (leaving it equal
to the input) and the estimate by the computed factor; scaling preserves
timestamps and rotation blocks and multiplies only the translations, and
the covariance variant touches only the translational block. -/
theorem c6_scaling_frame (ext : Ext) (args : Args) (inp : Input) (t : Traj) (c : CovTraj)
    (f : ℚ) :
    (scaledTrajs ext args inp).1 = inp.gt ∧
    (scaledTrajs ext args inp).2 = scale_dict inp.est (computedScale ext args inp) ∧
    (scale_dict t f).map Prod.fst = t.map Prod.fst ∧
    (scale_dict t f).map (fun p => p.2.rot) = t.map (fun p => p.2.rot) ∧
    (scale_dict t f).map (fun p => p.2.trans) = t.map (fun p => vscale f p.2.trans) ∧
    scale_dict_cov c 1 = c ∧
    (scale_dict_cov c f).map (fun p => (p.2.tr, p.2.rt, p.2.rr)) =
      c.map (fun p => (p.2.tr, p.2.rt, p.2.rr)) ∧
    (scale_dict_cov c f).map (fun p => p.2.tt) = c.map (fun p => mscale f p.2.tt) := by
  refine ⟨?_, rfl, ?_, ?_, ?_, scale_dict_cov_one c, ?_, ?_⟩
  · simp [scaledTrajs, scaledTrajsAux, scale_dict_one]
  · simp [scale_dict]
  · simp [scale_dict]
  · simp [scale_dict]
  · simp [scale_dict_cov]
  · simp [scale_dict_cov]

/-- The metric block never emits an association event. -/
lemma assocEv_not_mem_metricsBlock (ext : Ext) (args : Args) (g e : Traj) :
    Event.assocEv ∉ (metricsBlock ext args g e).1 := by
  by_cases hl : g.length = e.length
  · cases hddt : args.ddt <;> cases hrpe : args.rpe <;> cases ham : args.ate_manifold <;>
      simp [metricsBlock, ddtBlock, rpeResOf, rpeEvts, manEvts, ateEvts, hl, hddt, hrpe, ham]
  · simp [metricsBlock, hl]

/-- C7: with the `ignore_timestamp_match` bypass no timestamp association
happens at all (the stage is the identity and no association event is
emitted); downstream, pairs are formed by index position, and unequal
lengths make the metric call fail rather than being silently accepted. -/
theorem c7_bypass (ext : Ext) (args : Args) (inp : Input) (g e : Traj) (a : AxesSel)
    (hig : args.ignore_timestamp_match = true) :
    assocStage ext args (scaledTrajs ext args inp) = scaledTrajs ext args inp ∧
    Event.assocEv ∉ (runScript ext args inp).1 ∧
    (g.length = e.length →
      ATE_Horn g e a =
        some ((g.zip e).map fun pr => restrictAxes a (vsub pr.2.2.trans pr.1.2.trans))) ∧
    (g.length ≠ e.length →
      ATE_Horn g e a = none ∧ (metricsBlock ext args g e).2 = some PyErr.valueError) := by
  refine ⟨by simp [assocStage, hig], ?_, ?_, ?_⟩
  · unfold runScript runScriptAux
    cases hao : alignedOfAux ext args inp (computedScale ext args inp) with
    | none =>
        cases hnm : args.no_metrics <;> cases hsp : args.show_plots <;>
          simp [hig, hnm, hsp]
    | some kge =>
        cases hnm : args.no_metrics with
        | true => cases hsp : args.show_plots <;> simp [hig, hnm, hsp]
        | false =>
            cases hm : (metricsBlock ext args kge.2.1 kge.2.2).2 with
            | none =>
                cases hsp : args.show_plots <;>
                  simp [hig, hnm, hsp, hm, assocEv_not_mem_metricsBlock]
            | some e2 => simp [hig, hnm, hm, assocEv_not_mem_metricsBlock]
  · intro hl
    simp [ATE_Horn, hl, ateHornData]
  · intro hl
    exact ⟨by simp [ATE_Horn, hl], by simp [metricsBlock, hl]⟩

def argsC7 : Args := { argsBase with ignore_timestamp_match := true }

theorem c7_witness :
    assocStage extW argsC7 (scaledTrajs extW argsC7 inpW) = scaledTrajs extW argsC7 inpW ∧
    Event.assocEv ∉ (runScript extW argsC7 inpW).1 ∧
    (trajW.length = ([] : Traj).length →
      ATE_Horn trajW [] AxesSel.all =
        some ((trajW.zip ([] : Traj)).map fun pr =>
          restrictAxes AxesSel.all (vsub pr.2.2.trans pr.1.2.trans))) ∧
    (trajW.length ≠ ([] : Traj).length →
      ATE_Horn trajW [] AxesSel.all = none ∧
      (metricsBlock extW argsC7 trajW []).2 = some PyErr.valueError) :=
  c7_bypass extW argsC7 inpW trajW [] AxesSel.all rfl

/-- Kind of a tangent-space component: translational or rotational. -/
inductive CompKind where
  | transComp
  | rotComp
  deriving DecidableEq

/-- Modelled from the spec: the fixed component order of the 6x6 pose
covariance, "3 rotational + 3 translational components, order fixed"
(section 3) — rotation first. -/
def covCompKind (i : Fin 6) : CompKind :=
  if (i : ℕ) < 3 then CompKind.rotComp else CompKind.transComp

/-- Component order of the ATE-manifold error split in the script:
rows 0 to 2 are summarized as translational, rows 3 to 5 as rotational
(lines 133 to 134) — translation first. -/
def ateCompKind (i : Fin 6) : CompKind :=
  if (i : ℕ) < 3 then CompKind.transComp else CompKind.rotComp

/-- C8 counterexample: the ATE-manifold split order (translation first)
is not the covariance tangent order stated by the spec (rotation first):
already component 0 disagrees. -/
theorem c8_counterexample :
    ateCompKind 0 = CompKind.transComp ∧ covCompKind 0 = CompKind.rotComp ∧
    ¬ (∀ i : Fin 6, ateCompKind i = covCompKind i) := by
  decide

/-- C8 amended: per matched pair the ATE-manifold error is
log(gt⁻¹ · est); components 0 to 2 are summarized as the translational
sub-vector and components 3 to 5 as the rotational one, independently —
this order is the reverse of the covariance component order the spec
fixes. -/
theorem c8_ate_manifold_split (ext : Ext) (args : Args) (inp : Input) (k : String)
    (g e : Traj)
    (hnm : args.no_metrics = false) (ham : args.ate_manifold = true)
    (hal : alignedOfAux ext args inp (computedScale ext args inp) = some (k, (g, e)))
    (hlen : g.length = e.length) :
    Event.statEv lblTrans ((ATE_SE3 ext g e).map transPart) ∈ (runScript ext args inp).1 ∧
    Event.statEv lblRot ((ATE_SE3 ext g e).map rotPart) ∈ (runScript ext args inp).1 ∧
    ∀ pr ∈ g.zip e, ext.se3log (compose (invert pr.1.2) pr.2.2) ∈ ATE_SE3 ext g e := by
  refine ⟨?_, ?_, ?_⟩
  · unfold runScript runScriptAux
    rw [hal, hnm]
    cases hddt : args.ddt <;> cases hrpe : args.rpe <;> cases hsp : args.show_plots <;>
      simp [hddt, hrpe, hsp, metricsBlock, ddtBlock, rpeResOf, rpeEvts, manEvts, ateEvts,
        hlen, ham]
  · unfold runScript runScriptAux
    rw [hal, hnm]
    cases hddt : args.ddt <;> cases hrpe : args.rpe <;> cases hsp : args.show_plots <;>
      simp [hddt, hrpe, hsp, metricsBlock, ddtBlock, rpeResOf, rpeEvts, manEvts, ateEvts,
        hlen, ham]
  · intro pr hpr
    exact List.mem_map.mpr ⟨pr, hpr, rfl⟩

def argsC8 : Args := { argsBase with ate_manifold := true }

theorem c8_witness :
    Event.statEv lblTrans ((ATE_SE3 extW trajW trajW).map transPart) ∈
      (runScript extW argsC8 inpW).1 ∧
    Event.statEv lblRot ((ATE_SE3 extW trajW trajW).map rotPart) ∈
      (runScript extW argsC8 inpW).1 ∧
    ∀ pr ∈ trajW.zip trajW, extW.se3log (compose (invert pr.1.2) pr.2.2) ∈
      ATE_SE3 extW trajW trajW :=
  c8_ate_manifold_split extW argsC8 inpW alignHornStr trajW trajW rfl rfl
    (alignedOfAux_extW_horn argsC8 rfl rfl rfl) rfl

/-- C9: per-axis ATE-Horn errors are the full errors with the other two
components zeroed; the per-axis error norm equals the absolute value of
that coordinate of the full error vector; and the full error norm bounds
every per-axis error norm from above. -/
theorem c9_ate_horn_axis_norms (gt est : Traj) (a : AxesSel) (v : Vec3) :
    ATE_Horn gt est a =
      (ATE_Horn gt est AxesSel.all).map (fun l => l.map (restrictAxes a)) ∧
    (a = AxesSel.axX →
      Real.sqrt ((sqnorm3 (restrictAxes a v) : ℝ)) = |(v.x : ℝ)|) ∧
    (a = AxesSel.axY →
      Real.sqrt ((sqnorm3 (restrictAxes a v) : ℝ)) = |(v.y : ℝ)|) ∧
    (a = AxesSel.axZ →
      Real.sqrt ((sqnorm3 (restrictAxes a v) : ℝ)) = |(v.z : ℝ)|) ∧
    Real.sqrt ((sqnorm3 (restrictAxes a v) : ℝ)) ≤ Real.sqrt ((sqnorm3 v : ℝ)) := by
  refine ⟨?_, ?_, ?_, ?_, ?_⟩
  · by_cases hl : gt.length = est.length
    · simp [ATE_Horn, hl, ateHornData, List.map_map, restrictAxes]
    · simp [ATE_Horn, hl]
  · intro h
    subst h
    have hx : ((sqnorm3 (restrictAxes AxesSel.axX v) : ℚ) : ℝ) = ((v.x : ℝ)) ^ 2 := by
      simp [restrictAxes, sqnorm3]
    rw [hx, Real.sqrt_sq_eq_abs]
  · intro h
    subst h
    have hy : ((sqnorm3 (restrictAxes AxesSel.axY v) : ℚ) : ℝ) = ((v.y : ℝ)) ^ 2 := by
      simp [restrictAxes, sqnorm3]
    rw [hy, Real.sqrt_sq_eq_abs]
  · intro h
    subst h
    have hz : ((sqnorm3 (restrictAxes AxesSel.axZ v) : ℚ) : ℝ) = ((v.z : ℝ)) ^ 2 := by
      simp [restrictAxes, sqnorm3]
    rw [hz, Real.sqrt_sq_eq_abs]
  · apply Real.sqrt_le_sqrt
    have hq : sqnorm3 (restrictAxes a v) ≤ sqnorm3 v := by
      cases a <;> simp [restrictAxes, sqnorm3] <;>
        nlinarith [sq_nonneg v.x, sq_nonneg v.y, sq_nonneg v.z]
    exact_mod_cast hq

theorem c9_witness :
    Real.sqrt ((sqnorm3 (restrictAxes AxesSel.axX ⟨3, 4, 12⟩) : ℝ)) =
      |(((3 : ℚ)) : ℝ)| ∧
    Real.sqrt ((sqnorm3 (restrictAxes AxesSel.axX ⟨3, 4, 12⟩) : ℝ)) ≤
      Real.sqrt ((sqnorm3 (⟨3, 4, 12⟩ : Vec3) : ℝ)) ∧
    ATE_Horn trajW trajW AxesSel.axX =
      (ATE_Horn trajW trajW AxesSel.all).map (fun l => l.map (restrictAxes AxesSel.axX)) :=
  ⟨(c9_ate_horn_axis_norms trajW trajW AxesSel.axX ⟨3, 4, 12⟩).2.1 rfl,
   (c9_ate_horn_axis_norms trajW trajW AxesSel.axX ⟨3, 4, 12⟩).2.2.2.2,
   (c9_ate_horn_axis_norms trajW trajW AxesSel.axX ⟨3, 4, 12⟩).1⟩

end SlamSpec
